import Mathlib

/-!
Shallow embedding of the AWS prompt-module resolution core
(source: src/modules/aws.rs) and proofs about its specification.

The module resolves an effective (profile, region, credential-duration)
triple from the process environment and two INI files.  File parsing,
JSON parsing, SHA-1 hashing, RFC3339 timestamp parsing and the
human-readable time renderer are library primitives outside the core;
they are modelled as abstract function fields of the `Context` record,
exactly as the specification treats them (interface-level collaborators).
-/

set_option autoImplicit false

namespace Aws

/-- A parsed INI section: key-value pairs; lookup returns the first match. -/
abbrev Properties := List (String × String)

/-- A parsed INI file: a mapping from section name to section. -/
abbrev Ini := List (String × Properties)

/-- A plain-text profile identifier (type alias, as in the source). -/
abbrev Profile := String

/-- A plain-text region identifier (type alias, as in the source). -/
abbrev Region := String

/-- First value bound to a key in an association list, if any. -/
def lookupBy {α : Type} : List (String × α) → String → Option α
  | [], _ => none
  | (k, v) :: rest, key => if k = key then some v else lookupBy rest key

/-- Section lookup in a parsed INI file (the ini library primitive
`Ini::section(Some(name))`). -/
def sectionGet (ini : Ini) (name : String) : Option Properties :=
  lookupBy ini name

/-- Key presence in a section (`Properties::contains_key`). -/
def containsKey (s : Properties) (k : String) : Bool :=
  (lookupBy s k).isSome

/-- The process environment and the library primitives the core consumes.
`env` is the process environment, `home` the home directory
(`context.get_home()`), `readIni` the INI loader
(`Ini::load_from_file(path).ok()`: missing file, unparseable contents or a
directory path all yield `none`), `readFile` the raw file reader
(`crate::utils::read_file(path).ok()`), `jsonExpiresAt` the JSON primitive
(`serde_json::from_str` followed by `.get("expiresAt")?.as_str()`),
`sha1hex` the hex-encoded SHA-1 digest
(`crate::utils::encode_to_hex(&Sha1::digest(..))`), `parseRfc3339` the
timestamp parser returning epoch seconds
(`DateTime::parse_from_rfc3339(..).ok().map(|d| d.timestamp())`),
`renderTime` the human-readable span renderer
(`crate::utils::render_time(ms, false)`), and `now` the wall clock
(`chrono::Local::now().timestamp()`). -/
structure Context where
  env : List (String × String)
  home : Option String
  readIni : String → Option Ini
  readFile : String → Option String
  jsonExpiresAt : String → Option String
  sha1hex : String → String
  parseRfc3339 : String → Option Int
  renderTime : Nat → String
  now : Int

/-- Environment lookup (`context.get_env`). -/
def getEnv (ctx : Context) (name : String) : Option String :=
  lookupBy ctx.env name

/-- The configuration surface consumed by the module (options of
`AwsConfig` that the resolution core reads). -/
structure AwsConfig where
  force_display : Bool
  expiration_symbol : String
  profile_aliases : List (String × String)
  region_aliases : List (String × String)

/-- Path of the credentials file (`get_credentials_file_path`): the first
set override variable, else `<home>/.aws/credentials`. -/
def get_credentials_file_path (ctx : Context) : Option String :=
  match (getEnv ctx "AWS_SHARED_CREDENTIALS_FILE").orElse
      (fun _ => getEnv ctx "AWS_CREDENTIALS_FILE") with
  | some path => some path
  | none => ctx.home.map (fun h => h ++ "/.aws/credentials")

/-- Path of the config file (`get_config_file_path`): the override variable
if set, else `<home>/.aws/config`. -/
def get_config_file_path (ctx : Context) : Option String :=
  match getEnv ctx "AWS_CONFIG_FILE" with
  | some path => some path
  | none => ctx.home.map (fun h => h ++ "/.aws/config")

/-- The value the config-file cache holds once filled: resolve the
path and attempt to parse (body of the `get_or_init` closure in
`get_config`). -/
def loadConfig (ctx : Context) : Option Ini :=
  (get_config_file_path ctx).bind ctx.readIni

/-- The value the credentials-file cache holds once filled (body of
the `get_or_init` closure in `get_creds`). -/
def loadCreds (ctx : Context) : Option Ini :=
  (get_credentials_file_path ctx).bind ctx.readIni

/-- State of a `OnceCell<Option<Ini>>`: `none` is an untouched cell, `some v`
holds the memoized parse result `v`. -/
abbrev AwsFileCell := Option (Option Ini)

/-- Stateful reading of `get_config`: return the memoized value,
filling the cell on first touch. -/
def get_config (ctx : Context) (cell : AwsFileCell) : Option Ini × AwsFileCell :=
  match cell with
  | some v => (v, some v)
  | none => (loadConfig ctx, some (loadConfig ctx))

/-- Stateful reading of `get_creds`: return the memoized value,
filling the cell on first touch. -/
def get_creds (ctx : Context) (cell : AwsFileCell) : Option Ini × AwsFileCell :=
  match cell with
  | some v => (v, some v)
  | none => (loadCreds ctx, some (loadCreds ctx))

/-- Section of a profile in the config file (`get_profile_config`):
`none` selects `[default]`, `some p` selects `[profile p]`. -/
def get_profile_config (config : Ini) (profile : Option Profile) : Option Properties :=
  match profile with
  | some p => sectionGet config ("profile " ++ p)
  | none => sectionGet config "default"

/-- Section of a profile in the credentials file (`get_profile_creds`):
`none` selects `[default]`, `some p` selects `[p]` with no prefix. -/
def get_profile_creds (config : Ini) (profile : Option Profile) : Option Properties :=
  match profile with
  | none => sectionGet config "default"
  | some p => sectionGet config p

/-- Region from the config file for a profile (`get_aws_region_from_config`).
Because the cell contents are deterministic in the context, the memoized
value is `loadConfig ctx` whenever filled; downstream functions are
therefore written against `loadConfig`/`loadCreds` directly. -/
def get_aws_region_from_config (ctx : Context) (aws_profile : Option Profile) :
    Option Region := do
  let config ← loadConfig ctx
  let s ← get_profile_config config aws_profile
  lookupBy s "region"

/-- The ordered profile-carrying environment variables (`profile_env_vars`). -/
def profileEnvVars : List String :=
  ["AWSU_PROFILE", "AWS_VAULT", "AWSUME_PROFILE", "AWS_PROFILE", "AWS_SSO_PROFILE"]

/-- The ordered region-carrying environment variables (`region_env_vars`). -/
def regionEnvVars : List String :=
  ["AWS_REGION", "AWS_DEFAULT_REGION"]

/-- Profile and region resolution (`get_aws_profile_and_region`): env vars
first-match-wins, then the four-case merge with the config file. -/
def get_aws_profile_and_region (ctx : Context) : Option Profile × Option Region :=
  let profile := profileEnvVars.findSome? (getEnv ctx)
  let region := regionEnvVars.findSome? (getEnv ctx)
  match profile, region with
  | some p, some r => (some p, some r)
  | none, some r => (none, some r)
  | some p, none => (some p, get_aws_region_from_config ctx (some p))
  | none, none => (none, get_aws_region_from_config ctx none)

/-- The ordered expiration environment variables (`expiration_env_vars`). -/
def expirationEnvVars : List String :=
  ["AWS_CREDENTIAL_EXPIRATION", "AWS_SESSION_EXPIRATION", "AWSUME_EXPIRATION"]

/-- The ordered expiration keys of a credentials section (`expiration_keys`). -/
def expirationKeys : List String :=
  ["expiration", "x_security_token_expires"]

/-- Expiry timestamp from the cached SSO token file: the final `else`
branch of `get_credentials_duration` in the source, extracted as a
definition so that theorems can refer to it.  Reads `sso_start_url` from
the profile config section, hashes it, and reads the `expiresAt` field of
the JSON cache file named by the hex digest. -/
def ssoCacheExpiration (ctx : Context) (aws_profile : Option Profile) :
    Option Int := do
  let config ← loadConfig ctx
  let s ← get_profile_config config aws_profile
  let start_url ← lookupBy s "sso_start_url"
  let cache_key := ctx.sha1hex start_url
  let home ← ctx.home
  let sso_cred_path := home ++ "/.aws/sso/cache/" ++ cache_key ++ ".json"
  let contents ← ctx.readFile sso_cred_path
  let expires_at ← ctx.jsonExpiresAt contents
  ctx.parseRfc3339 expires_at

/-- Seconds until credential expiry (`get_credentials_duration`).  The three
branches are selected exactly as in the source: the env-var branch if some
expiration variable is present, else the credentials-file branch if the
profile section exists, else the cached-SSO branch. -/
def get_credentials_duration (ctx : Context) (aws_profile : Option Profile) :
    Option Int := do
  let expiration_date ←
    match expirationEnvVars.findSome? (getEnv ctx) with
    | some expiration_date => ctx.parseRfc3339 expiration_date
    | none =>
      match (loadCreds ctx).bind (fun creds => get_profile_creds creds aws_profile) with
      | some s =>
        (expirationKeys.findSome? (fun k => lookupBy s k)).bind ctx.parseRfc3339
      | none => ssoCacheExpiration ctx aws_profile
  some (expiration_date - ctx.now)

/-- Alias rewriting (`alias_name`): exact-match table lookup, identity on a
miss, never consulted for `none`. -/
def alias_name (name : Option String) (aliases : List (String × String)) :
    Option String :=
  ((name.bind (fun n => lookupBy aliases n))).orElse (fun _ => name)

/-- Process or SSO marker predicate (`has_credential_process_or_sso`).
The early-return on a missing config file, the degradation of a missing
config section to an empty one, and the `?` on the credentials section
reached only when the config-side disjuncts are all false, mirror the
source exactly. -/
def has_credential_process_or_sso (ctx : Context) (aws_profile : Option Profile) :
    Option Bool := do
  let config ← loadConfig ctx
  let credentials := loadCreds ctx
  let config_section := (get_profile_config config aws_profile).getD []
  if containsKey config_section "credential_process"
      || containsKey config_section "sso_session"
      || containsKey config_section "sso_start_url" then
    some true
  else do
    let credential_section ←
      credentials.bind (fun creds => get_profile_creds creds aws_profile)
    some (containsKey credential_section "credential_process"
      || containsKey credential_section "sso_start_url")

/-- The access-key environment variables (`valid_env_vars`). -/
def credentialEnvVars : List String :=
  ["AWS_ACCESS_KEY_ID", "AWS_SECRET_ACCESS_KEY", "AWS_SESSION_TOKEN"]

/-- Defined-credentials predicate (`has_defined_credentials`). -/
def has_defined_credentials (ctx : Context) (aws_profile : Option Profile) :
    Option Bool :=
  if credentialEnvVars.any (fun v => (getEnv ctx v).isSome) then
    some true
  else do
    let creds ← loadCreds ctx
    let s ← get_profile_creds creds aws_profile
    some (containsKey s "aws_access_key_id")

/-- Source-profile predicate (`has_source_profile`): read the
`source_profile` key of the resolved profile and evaluate both credential
predicates against the referenced profile. -/
def has_source_profile (ctx : Context) (aws_profile : Option Profile) :
    Option Bool := do
  let config ← loadConfig ctx
  let config_section ← get_profile_config config aws_profile
  let source_profile := lookupBy config_section "source_profile"
  let has_credential_process :=
    (has_credential_process_or_sso ctx source_profile).getD false
  let has_credentials :=
    (has_defined_credentials ctx source_profile).getD false
  some (has_credential_process || has_credentials)

/-- The duration string handed to the formatter: positive durations are
rendered human-readably, zero or negative durations become the configured
expiration marker (the closure mapped over `get_credentials_duration` in
`module`). -/
def moduleDuration (ctx : Context) (cfg : AwsConfig) (aws_profile : Option Profile) :
    Option String :=
  (get_credentials_duration ctx aws_profile).map (fun duration =>
    if 0 < duration then ctx.renderTime (duration * 1000).toNat
    else cfg.expiration_symbol)

/-- The record handed to the external formatting collaborator. -/
structure ModuleOutput where
  profile : Option String
  region : Option String
  duration : Option String
deriving DecidableEq

/-- The resolution pass (`module`), up to the external formatter: the two
suppression gates, then the duration, alias mapping and output record. -/
def module (ctx : Context) (cfg : AwsConfig) : Option ModuleOutput :=
  let pr := get_aws_profile_and_region ctx
  let aws_profile := pr.1
  let aws_region := pr.2
  if aws_profile.isNone && aws_region.isNone then
    none
  else if !cfg.force_display
      && !(has_credential_process_or_sso ctx aws_profile).getD false
      && !(has_source_profile ctx aws_profile).getD false
      && !(has_defined_credentials ctx aws_profile).getD false then
    none
  else
    some
      { profile := alias_name aws_profile cfg.profile_aliases
        region := alias_name aws_region cfg.region_aliases
        duration := moduleDuration ctx cfg aws_profile }

/-! Concrete contexts used to instantiate the theorems below. -/

/-- A context with an empty environment and no readable files. -/
def baseCtx : Context :=
  { env := []
    home := none
    readIni := fun _ => none
    readFile := fun _ => none
    jsonExpiresAt := fun _ => none
    sha1hex := fun _ => ""
    parseRfc3339 := fun _ => none
    renderTime := fun _ => ""
    now := 0 }

/-- A default-valued configuration surface. -/
def baseCfg : AwsConfig :=
  { force_display := false
    expiration_symbol := "X"
    profile_aliases := []
    region_aliases := [] }

/-- Context refuting the fall-through reading of the expiration chain: the
expiration environment variable is present but unparseable while the
credentials file holds a parseable expiration for the default profile. -/
def ctxExpCex : Context :=
  { baseCtx with
    env := [("AWS_CREDENTIAL_EXPIRATION", "garbage"),
            ("AWS_SHARED_CREDENTIALS_FILE", "creds")]
    readIni := fun p =>
      if p = "creds" then some [("default", [("expiration", "valid-ts")])] else none
    parseRfc3339 := fun s => if s = "valid-ts" then some 100 else none }

/-- Context whose config file is unreadable while the credentials file
carries a credential-process marker for the default profile. -/
def ctxNoConfig : Context :=
  { baseCtx with
    env := [("AWS_CONFIG_FILE", "cfg"), ("AWS_SHARED_CREDENTIALS_FILE", "creds")]
    readIni := fun p =>
      if p = "creds" then some [("default", [("credential_process", "x")])] else none }

/-- The config file of the section-naming scenario: a default section with
a region and a credential process, and one named profile section. -/
def iniNaming : Ini :=
  [("default", [("region", "us-east-1"),
                ("credential_process", "/opt/bin/awscreds-retriever")]),
   ("profile astronauts", [("region", "us-east-2")])]

/-- Context serving `iniNaming` as the config file. -/
def ctxNaming : Context :=
  { baseCtx with
    env := [("AWS_CONFIG_FILE", "cfg")]
    readIni := fun p => if p = "cfg" then some iniNaming else none }

/-- Context whose environment carries a parseable expiration variable. -/
def ctxExpEnv : Context :=
  { baseCtx with
    env := [("AWS_SESSION_EXPIRATION", "valid-ts")]
    parseRfc3339 := fun s => if s = "valid-ts" then some 1800 else none }

/-- Context whose environment carries an expiration variable lying 1800
seconds in the past. -/
def ctxExpired : Context :=
  { baseCtx with
    env := [("AWS_CREDENTIAL_EXPIRATION", "past-ts")]
    parseRfc3339 := fun s => if s = "past-ts" then some (-1800) else none }

/-- Config file in which `[profile astronauts]` has no `source_profile`
key while `[default]` carries a credential-process marker. -/
def iniNoSource : Ini :=
  [("profile astronauts", [("region", "us-east-2")]),
   ("default", [("credential_process", "x")])]

/-- Context serving `iniNoSource` as the config file. -/
def ctxNoSource : Context :=
  { baseCtx with
    env := [("AWS_CONFIG_FILE", "cfg")]
    readIni := fun p => if p = "cfg" then some iniNoSource else none }

/-- Config file with a three-profile indirection chain: `astronauts`
points at `starship`, `starship` points at `deep`, and only `deep` holds
a credential-process marker. -/
def iniChain : Ini :=
  [("profile astronauts", [("source_profile", "starship")]),
   ("profile starship", [("source_profile", "deep")]),
   ("profile deep", [("credential_process", "x")])]

/-- Context serving `iniChain` as the config file, with no credentials
file and no credential environment variables. -/
def ctxChain : Context :=
  { baseCtx with
    env := [("AWS_CONFIG_FILE", "cfg")]
    readIni := fun p => if p = "cfg" then some iniChain else none }

/-- Config file whose default section holds a credential process. -/
def iniMarker : Ini :=
  [("default", [("credential_process", "/opt/bin/awscreds-retriever")])]

/-- Context serving `iniMarker` as the config file. -/
def ctxMarker : Context :=
  { baseCtx with
    env := [("AWS_CONFIG_FILE", "cfg")]
    readIni := fun p => if p = "cfg" then some iniMarker else none }

/-! Theorems, one per claim. -/

/-- Binding an option into `some` of a function application equals mapping
the function over it. -/
theorem option_bind_some_eq_map {α β : Type} (m : Option α) (f : α → β) :
    m.bind (fun a => some (f a)) = m.map f := by
  cases m <;> rfl

/-- Binding an optional timestamp into the final subtraction equals
mapping the subtraction over it. -/
theorem option_bind_sub_eq_map (m : Option Int) (n : Int) :
    m.bind (fun t => some (t - n)) = m.map (fun t => t - n) := by
  cases m <;> rfl

/-- Binding an option into `some` of a Boolean test yields `some true`
exactly when the option holds a value passing the test. -/
theorem option_bind_some_eq_some_true {α : Type} (m : Option α) (f : α → Bool) :
    m.bind (fun a => some (f a)) = some true ↔ ∃ a, m = some a ∧ f a = true := by
  cases m <;> simp

/-- C8: within one resolution pass, the first call to get config (resp.
get credentials) computes the path and parse result — `loadConfig` (resp.
`loadCreds`), which yields `none` on a missing file, a parse failure or a
directory path, never an error — and every call stores exactly the value
it returns, so that every subsequent call returns the same memoized
`Option` value and leaves the cell unchanged. -/
theorem file_cache_idempotence :
    ∀ ctx : Context,
      ((get_config ctx none).1 = loadConfig ctx
        ∧ ∀ cell : AwsFileCell,
            (get_config ctx cell).2 = some (get_config ctx cell).1
            ∧ get_config ctx (get_config ctx cell).2 = get_config ctx cell)
      ∧ ((get_creds ctx none).1 = loadCreds ctx
        ∧ ∀ cell : AwsFileCell,
            (get_creds ctx cell).2 = some (get_creds ctx cell).1
            ∧ get_creds ctx (get_creds ctx cell).2 = get_creds ctx cell) := by
  intro ctx
  constructor
  · exact ⟨rfl, fun cell => by cases cell <;> exact ⟨rfl, rfl⟩⟩
  · exact ⟨rfl, fun cell => by cases cell <;> exact ⟨rfl, rfl⟩⟩

/-- C6: the config-file accessor maps a named profile to the section
`profile <name>` while the credentials-file accessor maps it to the bare
name, and both map the absent profile to the literal section `default`;
on the concrete two-section config file, a query with no profile resolves
the region of `[default]` — `us-east-1` — and the file has no section
named `profile default` to consult. -/
theorem section_naming_asymmetry :
    (∀ (ini : Ini) (p : Profile),
        get_profile_config ini (some p) = sectionGet ini ("profile " ++ p))
    ∧ (∀ ini : Ini, get_profile_config ini none = sectionGet ini "default")
    ∧ (∀ (ini : Ini) (p : Profile), get_profile_creds ini (some p) = sectionGet ini p)
    ∧ (∀ ini : Ini, get_profile_creds ini none = sectionGet ini "default")
    ∧ get_aws_region_from_config ctxNaming none = some "us-east-1"
    ∧ sectionGet iniNaming "profile default" = none := by
  exact ⟨fun _ _ => rfl, fun _ => rfl, fun _ _ => rfl, fun _ => rfl, by decide, by decide⟩

/-- C10: when the config file is absent or unparseable the process/SSO
marker predicate returns `none` — which the display gate treats as false —
whatever the credentials file contains; the credentials-file side of the
predicate is unreachable without a parsed config file. -/
theorem config_absent_blocks_marker :
    ∀ (ctx : Context) (p : Option Profile),
      loadConfig ctx = none → has_credential_process_or_sso ctx p = none := by
  intro ctx p h
  unfold has_credential_process_or_sso
  rw [h]
  rfl

/-- C10 witness: a context whose config file does not parse while the
credentials file carries a credential-process marker for the queried
profile; the predicate is still `none`. -/
theorem config_absent_blocks_marker_witness :
    has_credential_process_or_sso ctxNoConfig none = none
    ∧ ((loadCreds ctxNoConfig).bind (fun creds => get_profile_creds creds none)).map
        (fun cs => containsKey cs "credential_process" || containsKey cs "sso_start_url")
      = some true :=
  ⟨config_absent_blocks_marker ctxNoConfig none (by decide), by decide⟩

/-- C5 counterexample: with `AWS_CREDENTIAL_EXPIRATION` present but
unparseable and the credentials file of the default profile holding a
parseable `expiration`, the calculator returns `none` instead of falling
through to the credentials-file source, which would have yielded a
timestamp; hence a failure at the first source does not fall through, and
`none` is returned even though not all three sources fail. -/
theorem expiration_no_fallthrough_cex :
    get_credentials_duration ctxExpCex none = none
    ∧ expirationEnvVars.findSome? (getEnv ctxExpCex) = some "garbage"
    ∧ ctxExpCex.parseRfc3339 "garbage" = none
    ∧ ((loadCreds ctxExpCex).bind (fun creds => get_profile_creds creds none)).bind
        (fun s => (expirationKeys.findSome? (fun k => lookupBy s k)).bind
          ctxExpCex.parseRfc3339)
      = some 100 := by
  refine ⟨by decide, by decide, by decide, by decide⟩

/-- C5 amended: the three expiration sources are selected by availability,
not retried on failure: if an expiration environment variable is present,
its value alone decides the result (an unparseable value yields `none`
without consulting the later sources); otherwise, if the credentials-file
section of the profile exists, the first present of the two expiry keys
alone decides the result (a missing key falls to the second key, but
absence of both keys or an unparseable value yields `none` without
consulting the SSO cache); otherwise the SSO token-cache source decides,
any failure in it yielding `none`.  In every case the result is an
`Option`, never an error. -/
theorem expiration_sources_by_availability :
    ∀ (ctx : Context) (p : Option Profile),
      (∀ s : String, expirationEnvVars.findSome? (getEnv ctx) = some s →
        get_credentials_duration ctx p =
          (ctx.parseRfc3339 s).map (fun t => t - ctx.now))
      ∧ (expirationEnvVars.findSome? (getEnv ctx) = none →
         ∀ sec : Properties,
          (loadCreds ctx).bind (fun creds => get_profile_creds creds p) = some sec →
          get_credentials_duration ctx p =
            ((expirationKeys.findSome? (fun k => lookupBy sec k)).bind
              ctx.parseRfc3339).map (fun t => t - ctx.now))
      ∧ (expirationEnvVars.findSome? (getEnv ctx) = none →
         (loadCreds ctx).bind (fun creds => get_profile_creds creds p) = none →
          get_credentials_duration ctx p =
            (ssoCacheExpiration ctx p).map (fun t => t - ctx.now)) := by
  intro ctx p
  refine ⟨?_, ?_, ?_⟩
  · intro s hs
    unfold get_credentials_duration
    rw [hs]
    exact option_bind_sub_eq_map (ctx.parseRfc3339 s) ctx.now
  · intro h1 sec h2
    unfold get_credentials_duration
    rw [h1, h2]
    exact option_bind_sub_eq_map
      ((expirationKeys.findSome? (fun k => lookupBy sec k)).bind ctx.parseRfc3339) ctx.now
  · intro h1 h2
    unfold get_credentials_duration
    rw [h1, h2]
    exact option_bind_sub_eq_map (ssoCacheExpiration ctx p) ctx.now

/-- C5 witness: with a parseable expiration variable 1800 seconds ahead,
the calculator returns those 1800 seconds via the first source. -/
theorem expiration_sources_by_availability_witness :
    get_credentials_duration ctxExpEnv none = some 1800 := by
  rw [(expiration_sources_by_availability ctxExpEnv none).1 "valid-ts" (by decide)]
  decide

/-- C7: whenever the expiration calculator yields a value, a strictly
positive remainder is rendered through the human-readable time renderer
while a zero or negative remainder is replaced by the configured
expiration marker, and the duration string the module hands to the
formatter is exactly this rendering. -/
theorem duration_rendering_threshold :
    ∀ (ctx : Context) (cfg : AwsConfig) (p : Option Profile) (d : Int),
      get_credentials_duration ctx p = some d →
      ((0 < d → moduleDuration ctx cfg p = some (ctx.renderTime (d * 1000).toNat))
       ∧ (d ≤ 0 → moduleDuration ctx cfg p = some cfg.expiration_symbol)
       ∧ ∀ out : ModuleOutput, module ctx cfg = some out →
           out.duration = moduleDuration ctx cfg (get_aws_profile_and_region ctx).1) := by
  intro ctx cfg p d h
  refine ⟨?_, ?_, ?_⟩
  · intro h0
    unfold moduleDuration
    rw [h]
    show some (if 0 < d then ctx.renderTime (d * 1000).toNat else cfg.expiration_symbol)
      = some (ctx.renderTime (d * 1000).toNat)
    rw [if_pos h0]
  · intro h0
    unfold moduleDuration
    rw [h]
    show some (if 0 < d then ctx.renderTime (d * 1000).toNat else cfg.expiration_symbol)
      = some cfg.expiration_symbol
    rw [if_neg (not_lt.mpr h0)]
  · intro out hout
    simp only [module] at hout
    split at hout
    · exact Option.noConfusion hout
    · split at hout
      · exact Option.noConfusion hout
      · rw [← Option.some_inj.mp hout]

/-- C7 witness: an expiration 1800 seconds in the past renders the
configured expiration marker rather than a negative duration. -/
theorem duration_rendering_threshold_witness :
    moduleDuration ctxExpired baseCfg none = some "X" :=
  (duration_rendering_threshold ctxExpired baseCfg none (-1800) (by decide)).2.1 (by decide)

/-- C9: when the config-file section of the resolved profile exists but
holds no `source_profile` key, the source-profile predicate does not
return false: it evaluates the two credential predicates against the
default profile, so such a profile passes the check whenever the default
profile carries credential evidence. -/
theorem source_profile_missing_uses_default :
    ∀ (ctx : Context) (p : Option Profile) (ini : Ini) (s : Properties),
      loadConfig ctx = some ini →
      get_profile_config ini p = some s →
      lookupBy s "source_profile" = none →
      (has_source_profile ctx p =
        some ((has_credential_process_or_sso ctx none).getD false
          || (has_defined_credentials ctx none).getD false))
      ∧ (((has_credential_process_or_sso ctx none).getD false
          || (has_defined_credentials ctx none).getD false) = true →
         has_source_profile ctx p = some true) := by
  intro ctx p ini s h1 h2 h3
  have hmain : has_source_profile ctx p =
      some ((has_credential_process_or_sso ctx none).getD false
        || (has_defined_credentials ctx none).getD false) := by
    simp only [has_source_profile, h1, Option.bind_eq_bind, Option.some_bind, h2, h3]
  exact ⟨hmain, fun htrue => by rw [hmain, htrue]⟩

/-- C9 witness: `profile astronauts` has no `source_profile` key while the
default section carries a credential process, so the source-profile
predicate holds for it. -/
theorem source_profile_missing_uses_default_witness :
    has_source_profile ctxNoSource (some "astronauts") = some true :=
  (source_profile_missing_uses_default ctxNoSource (some "astronauts") iniNoSource
    [("region", "us-east-2")] (by decide) (by decide) (by decide)).2 (by decide)

/-- C3: when the config-file section of the resolved profile declares a
`source_profile`, the predicate returns true exactly when the process/SSO
marker predicate or the defined-credentials predicate holds for the
referenced profile; in particular, when neither holds directly for the
referenced profile, the result is `some false` — whatever deeper
`source_profile` chain the context may contain — so the indirection never
recurses beyond one level and such a profile is left to suppression. -/
theorem source_profile_one_level :
    ∀ (ctx : Context) (p : Option Profile) (ini : Ini) (s : Properties) (sp : Profile),
      loadConfig ctx = some ini →
      get_profile_config ini p = some s →
      lookupBy s "source_profile" = some sp →
      (has_source_profile ctx p =
        some ((has_credential_process_or_sso ctx (some sp)).getD false
          || (has_defined_credentials ctx (some sp)).getD false))
      ∧ ((has_credential_process_or_sso ctx (some sp)).getD false = false →
         (has_defined_credentials ctx (some sp)).getD false = false →
         has_source_profile ctx p = some false) := by
  intro ctx p ini s sp h1 h2 h3
  have hmain : has_source_profile ctx p =
      some ((has_credential_process_or_sso ctx (some sp)).getD false
        || (has_defined_credentials ctx (some sp)).getD false) := by
    simp only [has_source_profile, h1, Option.bind_eq_bind, Option.some_bind, h2, h3]
  exact ⟨hmain, fun ha hb => by rw [hmain, ha, hb]; rfl⟩

/-- C3 witness: in the chain `astronauts → starship → deep`, where only
`deep` has credential evidence, the predicate is `some false` for
`astronauts` (the referenced `starship` has no direct evidence and its own
`source_profile` is not followed) yet `some true` for `starship`. -/
theorem source_profile_one_level_witness :
    has_source_profile ctxChain (some "astronauts") = some false
    ∧ has_source_profile ctxChain (some "starship") = some true :=
  ⟨(source_profile_one_level ctxChain (some "astronauts") iniChain
      [("source_profile", "starship")] "starship"
      (by decide) (by decide) (by decide)).2 (by decide) (by decide),
   by decide⟩

/-- C4: given a parsed config file, the process/SSO marker predicate is
`some true` exactly when the config-file section of the profile contains
`credential_process`, `sso_session` or `sso_start_url`, or the
credentials-file section of the profile contains `credential_process` or
`sso_start_url`; and a missing config-file section degrades to an empty
section, leaving exactly the credentials-file check. -/
theorem process_sso_marker_predicate :
    ∀ (ctx : Context) (p : Option Profile) (ini : Ini),
      loadConfig ctx = some ini →
      ((has_credential_process_or_sso ctx p = some true ↔
         (∃ s : Properties, get_profile_config ini p = some s ∧
           (containsKey s "credential_process" || containsKey s "sso_session"
             || containsKey s "sso_start_url") = true)
         ∨ (∃ cs : Properties,
             (loadCreds ctx).bind (fun creds => get_profile_creds creds p) = some cs ∧
             (containsKey cs "credential_process" || containsKey cs "sso_start_url") = true))
       ∧ (get_profile_config ini p = none →
          has_credential_process_or_sso ctx p =
            ((loadCreds ctx).bind (fun creds => get_profile_creds creds p)).map
              (fun cs => containsKey cs "credential_process"
                || containsKey cs "sso_start_url"))) := by
  intro ctx p ini h
  have hunf : has_credential_process_or_sso ctx p =
      (if containsKey ((get_profile_config ini p).getD []) "credential_process"
          || containsKey ((get_profile_config ini p).getD []) "sso_session"
          || containsKey ((get_profile_config ini p).getD []) "sso_start_url" then
        some true
      else
        ((loadCreds ctx).bind (fun creds => get_profile_creds creds p)).bind
          (fun cs => some (containsKey cs "credential_process"
            || containsKey cs "sso_start_url"))) := by
    simp only [has_credential_process_or_sso, h, Option.bind_eq_bind, Option.some_bind]
  have hempty : ∀ k : String, containsKey [] k = false := fun _ => rfl
  constructor
  · rw [hunf]
    rcases hsec : get_profile_config ini p with _ | s
    · simp only [hsec, Option.getD_none, hempty, Bool.or_self, Bool.false_eq_true,
        if_false, option_bind_some_eq_some_true]
      constructor
      · exact fun hcs => Or.inr hcs
      · rintro (⟨s, hs, _⟩ | hcs)
        · exact absurd hs (by simp)
        · exact hcs
    · simp only [hsec, Option.getD_some]
      by_cases hA : (containsKey s "credential_process" || containsKey s "sso_session"
          || containsKey s "sso_start_url") = true
      · rw [if_pos hA]
        constructor
        · exact fun _ => Or.inl ⟨s, rfl, hA⟩
        · exact fun _ => rfl
      · rw [if_neg hA]
        rw [option_bind_some_eq_some_true]
        constructor
        · exact fun hcs => Or.inr hcs
        · rintro (⟨s2, hs2, hA2⟩ | hcs)
          · exact absurd (Option.some_inj.mp hs2 ▸ hA2) hA
          · exact hcs
  · intro hnone
    rw [hunf, hnone]
    simp only [Option.getD_none, hempty, Bool.or_self, Bool.false_eq_true, if_false]
    exact option_bind_some_eq_map _ _

/-- C4 witness: with a config file whose default section declares a
credential process, the predicate holds for the default profile. -/
theorem process_sso_marker_predicate_witness :
    has_credential_process_or_sso ctxMarker none = some true :=
  ((process_sso_marker_predicate ctxMarker none iniMarker (by decide)).1).mpr
    (Or.inl ⟨[("credential_process", "/opt/bin/awscreds-retriever")], by decide, by decide⟩)

/-- Context hitting the profile-only selector case: a profile environment
variable and a config file holding the region of that profile. -/
def ctxSelector : Context :=
  { baseCtx with
    env := [("AWS_PROFILE", "astronauts"), ("AWS_CONFIG_FILE", "cfg")]
    readIni := fun p =>
      if p = "cfg" then some [("profile astronauts", [("region", "us-east-2")])] else none }

/-- C2: the selector consults the profile variables and the region
variables first-match-wins and then follows the four-case policy: both
found — both used as-is with the config file never read (the result is
invariant under any INI loader); only a region found — the profile is
`none`, again without reading the config file; only a profile found — the
region is looked up in the config-file section `profile <name>` of that
profile; neither found — the profile is `none` and the region is looked
up in the default section of the config file. -/
theorem profile_region_selector_cases :
    ∀ ctx : Context,
      (∀ p r : String,
        profileEnvVars.findSome? (getEnv ctx) = some p →
        regionEnvVars.findSome? (getEnv ctx) = some r →
        ∀ f : String → Option Ini,
          get_aws_profile_and_region { ctx with readIni := f } = (some p, some r))
      ∧ (∀ r : String,
        profileEnvVars.findSome? (getEnv ctx) = none →
        regionEnvVars.findSome? (getEnv ctx) = some r →
        ∀ f : String → Option Ini,
          get_aws_profile_and_region { ctx with readIni := f } = (none, some r))
      ∧ (∀ p : String,
        profileEnvVars.findSome? (getEnv ctx) = some p →
        regionEnvVars.findSome? (getEnv ctx) = none →
        get_aws_profile_and_region ctx =
          (some p, (loadConfig ctx).bind (fun ini =>
            (sectionGet ini ("profile " ++ p)).bind (fun s => lookupBy s "region"))))
      ∧ (profileEnvVars.findSome? (getEnv ctx) = none →
        regionEnvVars.findSome? (getEnv ctx) = none →
        get_aws_profile_and_region ctx =
          (none, (loadConfig ctx).bind (fun ini =>
            (sectionGet ini "default").bind (fun s => lookupBy s "region")))) := by
  intro ctx
  refine ⟨?_, ?_, ?_, ?_⟩
  · intro p r hp hr f
    have hp2 : profileEnvVars.findSome? (getEnv { ctx with readIni := f }) = some p := hp
    have hr2 : regionEnvVars.findSome? (getEnv { ctx with readIni := f }) = some r := hr
    simp only [get_aws_profile_and_region, hp2, hr2]
  · intro r hp hr f
    have hp2 : profileEnvVars.findSome? (getEnv { ctx with readIni := f }) = none := hp
    have hr2 : regionEnvVars.findSome? (getEnv { ctx with readIni := f }) = some r := hr
    simp only [get_aws_profile_and_region, hp2, hr2]
  · intro p hp hr
    simp only [get_aws_profile_and_region, hp, hr]
    rfl
  · intro hp hr
    simp only [get_aws_profile_and_region, hp, hr]
    rfl

/-- C2 witness: with only `AWS_PROFILE` set, the region is resolved from
the section `profile astronauts` of the config file. -/
theorem profile_region_selector_cases_witness :
    get_aws_profile_and_region ctxSelector = (some "astronauts", some "us-east-2") := by
  rw [(profile_region_selector_cases ctxSelector).2.2.1 "astronauts" (by decide) (by decide)]
  decide

/-- C1: the module emits nothing exactly when both resolved profile and
resolved region are absent, or the always-show override is off and none of
the three credential predicates holds (`none`, could not determine,
counting as not holding); consequently, in any environment with no
profile or region variable set, the override off, and no predicate
evidence discoverable, the result is suppression whatever the files
contain. -/
theorem display_gate_suppression :
    ∀ (ctx : Context) (cfg : AwsConfig),
      (module ctx cfg = none ↔
        ((get_aws_profile_and_region ctx).1 = none
          ∧ (get_aws_profile_and_region ctx).2 = none)
        ∨ (cfg.force_display = false
          ∧ (has_credential_process_or_sso ctx (get_aws_profile_and_region ctx).1).getD
              false = false
          ∧ (has_source_profile ctx (get_aws_profile_and_region ctx).1).getD false = false
          ∧ (has_defined_credentials ctx (get_aws_profile_and_region ctx).1).getD
              false = false))
      ∧ ((∀ v ∈ profileEnvVars, getEnv ctx v = none) →
         (∀ v ∈ regionEnvVars, getEnv ctx v = none) →
         cfg.force_display = false →
         (has_credential_process_or_sso ctx none).getD false = false →
         (has_source_profile ctx none).getD false = false →
         (has_defined_credentials ctx none).getD false = false →
         module ctx cfg = none) := by
  intro ctx cfg
  have hiff : module ctx cfg = none ↔
      ((get_aws_profile_and_region ctx).1 = none
        ∧ (get_aws_profile_and_region ctx).2 = none)
      ∨ (cfg.force_display = false
        ∧ (has_credential_process_or_sso ctx (get_aws_profile_and_region ctx).1).getD
            false = false
        ∧ (has_source_profile ctx (get_aws_profile_and_region ctx).1).getD false = false
        ∧ (has_defined_credentials ctx (get_aws_profile_and_region ctx).1).getD
            false = false) := by
    simp only [module]
    split_ifs with h1 h2
    · simp only [Bool.and_eq_true, Option.isNone_iff_eq_none] at h1
      exact iff_of_true rfl (Or.inl h1)
    · have h3 := h2
      simp only [Bool.and_eq_true, Bool.not_eq_true'] at h3
      exact iff_of_true rfl (Or.inr ⟨h3.1.1.1, h3.1.1.2, h3.1.2, h3.2⟩)
    · constructor
      · intro habs
        exact absurd habs (by simp)
      · rintro (⟨ha, hb⟩ | ⟨hfd, hp1, hp2, hp3⟩)
        · refine absurd ?_ h1
          rw [ha, hb]
          rfl
        · refine absurd ?_ h2
          rw [hfd, hp1, hp2, hp3]
          rfl
  refine ⟨hiff, ?_⟩
  intro hpv hrv hfd hq1 hq2 hq3
  have h5 : profileEnvVars.findSome? (getEnv ctx) = none := by
    have e1 := hpv "AWSU_PROFILE" (by simp [profileEnvVars])
    have e2 := hpv "AWS_VAULT" (by simp [profileEnvVars])
    have e3 := hpv "AWSUME_PROFILE" (by simp [profileEnvVars])
    have e4 := hpv "AWS_PROFILE" (by simp [profileEnvVars])
    have e5 := hpv "AWS_SSO_PROFILE" (by simp [profileEnvVars])
    simp [profileEnvVars, List.findSome?, e1, e2, e3, e4, e5]
  have hprof : (get_aws_profile_and_region ctx).1 = none := by
    rcases hr6 : regionEnvVars.findSome? (getEnv ctx) with _ | r <;>
      simp [get_aws_profile_and_region, h5, hr6]
  refine hiff.mpr (Or.inr ⟨hfd, ?_, ?_, ?_⟩)
  · rw [hprof]; exact hq1
  · rw [hprof]; exact hq2
  · rw [hprof]; exact hq3

/-- C1 witness: an empty environment with no readable files and the
default configuration is suppressed. -/
theorem display_gate_suppression_witness :
    module baseCtx baseCfg = none :=
  (display_gate_suppression baseCtx baseCfg).2 (by decide) (by decide) rfl
    (by decide) (by decide) (by decide)

end Aws
